import Mathlib

/-!
# Verification of `pydantic_cloud/gcp.py`

A shallow embedding of the settings-resolution layer in
`src/pydantic_cloud/gcp.py` (class `GoogleCloudSecretSettings` and the helper
functions `get_google_cloud_secret` and `read_cloud_env_file`), together with
proofs about the layered value-resolution algorithm.

Python dictionaries holding resolved settings values are modelled by the
inductive `PyFields` (an insertion-ordered association structure whose update
overwrites in place, matching CPython dict semantics); Python values by
`PyVal`.  Environment-variable mappings (`Dict[str, Optional[str]]`) are
modelled as `List (String × Option String)` with the same dict semantics.
External collaborators (the Google Secret Manager client, the dotenv parser,
`json.loads`, pydantic's `read_env_file`, the filesystem, `os.environ`, and
the output of the collaborator layer `_build_secrets_files`) are passed in as
explicit parameters bundled in `Collab`.
-/

set_option autoImplicit false

namespace PydanticCloud

mutual
/-- A Python value as it appears in a settings mapping: `None`, a string, a
number, a boolean, a list, or a (string-keyed) dict. -/
inductive PyVal where
  | vNone
  | vStr (s : String)
  | vInt (n : Int)
  | vBool (b : Bool)
  | vList (xs : PyValList)
  | vDict (d : PyFields)
deriving Repr

/-- A Python list of values. -/
inductive PyValList where
  | lnil
  | lcons (v : PyVal) (rest : PyValList)
deriving Repr

/-- A Python `dict` from string key to value, in insertion order. -/
inductive PyFields where
  | fnil
  | fcons (k : String) (v : PyVal) (rest : PyFields)
deriving Repr
end

/-- Python `str.lower()`, character-wise (structural, so that concrete
instances compute by `rfl`; agrees with `String.toLower`). -/
def pyLower (s : String) : String := String.mk (s.data.map Char.toLower)

/-! ## Dict primitives -/

/-- First-match lookup `d[k]` / `d.get(k)` on a `PyFields` dict.  (Python
dicts have unique keys, so first match is the match.) -/
def dlookup : PyFields → String → Option PyVal
  | .fnil, _ => none
  | .fcons k' v rest, k => if k' = k then some v else dlookup rest k

/-- Concatenation of two `PyFields`. -/
def dappend : PyFields → PyFields → PyFields
  | .fnil, e => e
  | .fcons k v rest, e => .fcons k v (dappend rest e)

/-- Python dict assignment `d[k] = v`: overwrite in place if the key is
present, else append.  (A Python dict never holds a duplicate key, so
overwriting the first occurrence is the dict semantics.) -/
def dset : PyFields → String → PyVal → PyFields
  | .fnil, k, v => .fcons k v .fnil
  | .fcons k' v' rest, k, v =>
    if k' = k then .fcons k v rest else .fcons k' v' (dset rest k v)

/-- The keys of a `PyFields`, in order. -/
def dkeys : PyFields → List String
  | .fnil => []
  | .fcons k _ rest => k :: dkeys rest

/-- A Python `Dict[str, Optional[str]]`, the shape of environment-variable
mappings in the source. -/
abbrev EnvMap := List (String × Option String)

/-- First-match association lookup on a list-modelled dict. -/
def alookup {α : Type} : List (String × α) → String → Option α
  | [], _ => none
  | (k', v) :: rest, k => if k' = k then some v else alookup rest k

/-- Last-match association lookup, used to reason about key/value sequences
with duplicate keys fed through dict construction (later assignment wins). -/
def rlookup {α : Type} : List (String × α) → String → Option α
  | [], _ => none
  | (k', v) :: rest, k =>
    match rlookup rest k with
    | some w => some w
    | none => if k' = k then some v else none

/-- Python dict assignment on a list-modelled dict: overwrite in place if the
key is present, else append.  (A Python dict never holds a duplicate key, so
overwriting the first occurrence is the dict semantics.) -/
def aset {α : Type} : List (String × α) → String → α → List (String × α)
  | [], k, v => [(k, v)]
  | (k', v') :: rest, k, v =>
    if k' = k then (k, v) :: rest else (k', v') :: aset rest k v

/-- Python dict construction from a sequence of key/value pairs (a dict
comprehension or literal): later pairs overwrite earlier ones. -/
def pyDictOf {α : Type} (xs : List (String × α)) : List (String × α) :=
  xs.foldl (fun acc p => aset acc p.1 p.2) []

/-- Python `{**a, **b}`: a fresh dict holding `a`'s entries overwritten by
`b`'s. -/
def pymerge {α : Type} (a b : List (String × α)) : List (String × α) :=
  b.foldl (fun acc p => aset acc p.1 p.2) (a.foldl (fun acc p => aset acc p.1 p.2) [])

/-- Is this value a Python dict? (`isinstance(v, dict)`). -/
def isVDict : PyVal → Bool
  | .vDict _ => true
  | _ => false

mutual
/-- `pydantic.utils.deep_update` restricted to two arguments: entries of `r`
overwrite entries of `l`, except that two dict values at the same key are
merged recursively (`if k in updated_mapping and isinstance(updated_mapping[k],
dict) and isinstance(v, dict)`). -/
def deepUpdate2 : PyFields → PyFields → PyFields
  | l, .fnil => l
  | l, .fcons k v rest => deepUpdate2 (dset l k (mergeOldNew (dlookup l k) v)) rest

/-- The value one `deep_update` assignment writes, given the previous value
at the key (if any) and the incoming value: two dicts merge recursively,
anything else is replaced outright. -/
def mergeOldNew : Option PyVal → PyVal → PyVal
  | some (.vDict od), .vDict nd => .vDict (deepUpdate2 od nd)
  | _, v => v
end

/-- One assignment step of `deep_update`: write `v` at key `k`, deep-merging
when both the old and the new value are dicts. -/
def deepSet (l : PyFields) (k : String) (v : PyVal) : PyFields :=
  dset l k (mergeOldNew (dlookup l k) v)

/-- Variadic `pydantic.utils.deep_update m ms₀ ms₁ …`. -/
def deepUpdateList (m : PyFields) (ms : List PyFields) : PyFields :=
  ms.foldl deepUpdate2 m

/-! ## The secret fetcher `get_google_cloud_secret` (gcp.py lines 17–34)

The Google client is I/O; it is modelled by two function parameters:
`access_secret_version` (client construction plus
`client.access_secret_version(name=key)`, returning the payload bytes or
raising) and `decode` (Python `bytes.decode`, which can raise `LookupError`
for an unknown encoding or `UnicodeDecodeError` for invalid bytes).  The
`try` block of the source wraps both calls and catches exactly
`GoogleAuthError` and `GoogleAPIError`. -/

/-- The Python exceptions that can arise inside `get_google_cloud_secret`. -/
inductive PyExc where
  | googleAuthError (msg : String)
  | googleAPIError (msg : String)
  | lookupError (msg : String)
  | unicodeDecodeError (msg : String)
deriving Repr, DecidableEq

/-- The exception classes named in the `except` clause of
`get_google_cloud_secret`: `(GoogleAuthError, GoogleAPIError)`. -/
def caughtByFetch : PyExc → Bool
  | .googleAuthError _ => true
  | .googleAPIError _ => true
  | _ => false

/-- The `try` body: the client call followed by the payload decode (an
exception in either aborts the body). -/
def fetchBody (decode : List Nat → Option String → Except PyExc String)
    (encoding : Option String) : Except PyExc (List Nat) → Except PyExc String
  | .error e => .error e
  | .ok payload => decode payload encoding

/-- The `try`/`except` wrapper: a body exception of a caught class becomes
`None` (after a logged warning); any other exception escapes. -/
def fetchCatch : Except PyExc String → Except PyExc (Option String)
  | .ok s => .ok (some s)
  | .error e => if caughtByFetch e then .ok none else .error e

/-- `get_google_cloud_secret(key, encoding)` (gcp.py lines 17–34): run the
client call and the payload decode inside `try`; convert a caught
`GoogleAuthError`/`GoogleAPIError` into `None` (after logging a warning);
any other exception escapes. -/
def get_google_cloud_secret
    (access_secret_version : String → Except PyExc (List Nat))
    (decode : List Nat → Option String → Except PyExc String)
    (key : String) (encoding : Option String) : Except PyExc (Option String) :=
  fetchCatch (fetchBody decode encoding (access_secret_version key))

/-! ## Data model of the settings class -/

/-- A declared settings field as the resolvers see it: its alias, its
acceptable environment-variable names (`field.field_info.extra['env_names']`),
its complex-type flag (`field.is_complex()`), and the raw
`field.field_info.extra.get("cloud_key")` metadata (an arbitrary Python
value; only a `str` is acted on). -/
structure FieldSpec where
  falias : String
  env_names : List String
  is_complex : Bool
  cloud_key : Option PyVal

/-- The `Config` options consulted by the resolvers (`BaseSettings.Config`
plus the `CloudConfig` additions `cloud_env_file` and
`cloud_env_file_encoding`, gcp.py lines 37–39). -/
structure Config where
  case_sensitive : Bool
  env_file : Option String
  env_file_encoding : Option String
  cloud_env_file : Option String
  cloud_env_file_encoding : Option String

/-- The `_env_file` argument threaded from `BaseSettings.__init__`: the
pydantic sentinel (the default), an explicit `None`, or an explicit path. -/
inductive EnvFileArg where
  | sentinel
  | noneArg
  | path (p : String)

/-- The external collaborators of the resolution pass, bundled: the secret
store (observable behaviour of `get_google_cloud_secret`: key and optional
encoding to decoded payload or `None`), the dotenv parser, `json.loads`, the
pydantic `read_env_file` helper, the filesystem, `os.environ`, and the output
of the collaborator layer `_build_secrets_files`. -/
structure Collab where
  fetch : String → Option String → Option String
  dotenv_values : String → EnvMap
  json_loads : String → Except String PyVal
  read_env_file : String → Option String → Bool → EnvMap
  is_file : String → Bool
  expanduser : String → String
  os_environ : List (String × String)
  secrets_files : PyFields

/-- `env_vars.get(name)` on a `Dict[str, Optional[str]]`, flattened the way
the source's `is not None` / truthiness tests see it: `none` both for a
missing key and for a key stored with value `None`. -/
def envGet (m : EnvMap) (k : String) : Option String :=
  match alookup m k with
  | some (some v) => some v
  | _ => none

/-- The `for env_name in env_names: … break` scan (gcp.py lines 108–111):
the first environment name whose value is not `None`, together with that
value. -/
def firstHit (m : EnvMap) : List String → Option (String × String)
  | [] => none
  | n :: rest =>
    match envGet m n with
    | some v => some (n, v)
    | none => firstHit m rest

/-- Coerce the fetcher's `Optional[str]` result into a stored value. -/
def optStr : Option String → PyVal
  | some s => .vStr s
  | none => .vNone

/-- The `env_vars` base mapping built from `os.environ` (gcp.py lines 87–90
and 127–130): `os.environ` itself when case-sensitive, else a dict
comprehension lower-casing every key. -/
def baseEnvVars (C : Collab) (case_sensitive : Bool) : EnvMap :=
  if case_sensitive then C.os_environ.map (fun p => (p.1, some p.2))
  else pyDictOf (C.os_environ.map (fun p => (pyLower p.1, some p.2)))

/-- `read_cloud_env_file(cloud_path, encoding, case_sensitive)` (gcp.py lines
42–59): fetch the blob (a `None` result feeds an empty stream into the dotenv
parser), parse it, and lower-case the keys unless case-sensitive. -/
def read_cloud_env_file (C : Collab) (cloud_path : String)
    (encoding : Option String) (case_sensitive : Bool) : EnvMap :=
  let content := C.fetch cloud_path encoding
  let file_vars := C.dotenv_values (content.getD "")
  if case_sensitive then file_vars
  else pyDictOf (file_vars.map (fun p => (pyLower p.1, p.2)))

/-- The `env_vars` mapping used by `_build_cloud_environ` (gcp.py lines
87–103): the base mapping, with the cloud env file merged underneath it when
configured.  The lookup of the configured variable is by its lower-cased name
(`env_vars[cloud_env_file.lower()]`); a miss is the caught `KeyError` (a
warning is logged and the base mapping is kept).  Note the source does not
forward `case_sensitive` to `read_cloud_env_file`, so its default `False`
applies.  (`os.environ` values are always strings, so a key stored with
`None` cannot occur in the base mapping; that branch also keeps the base
mapping.) -/
def cloudEnvVarsAux (C : Collab) (cfg : Config) (env0 : EnvMap) :
    Option String → EnvMap
  | none => env0
  | some cef =>
    match alookup env0 (pyLower cef) with
    | some (some rid) =>
      pymerge (read_cloud_env_file C rid cfg.cloud_env_file_encoding false) env0
    | _ => env0

/-- The mapping above, applied to the base mapping and the configured
`cloud_env_file`. -/
def cloudEnvVars (C : Collab) (cfg : Config) : EnvMap :=
  cloudEnvVarsAux C cfg (baseEnvVars C cfg.case_sensitive) cfg.cloud_env_file

/-- The `for field in self.__fields__.values()` loop shared by
`_build_cloud_environ` (gcp.py lines 105–122) and the collaborator
`BaseSettings._build_environ`: find the first valued environment name, skip
the field if there is none, JSON-decode complex values (a `ValueError` from
`json_loads` raises `SettingsError` naming the offending variable), and store
under the field's alias. -/
def settingsFieldsLoop (json_loads : String → Except String PyVal)
    (env_vars : EnvMap) : List FieldSpec → PyFields → Except String PyFields
  | [], d => .ok d
  | f :: rest, d =>
    match firstHit env_vars f.env_names with
    | none => settingsFieldsLoop json_loads env_vars rest d
    | some (env_name, env_val) =>
      if f.is_complex then
        match json_loads env_val with
        | .ok v => settingsFieldsLoop json_loads env_vars rest (dset d f.falias v)
        | .error _ => .error ("error parsing JSON for \"" ++ env_name ++ "\"")
      else settingsFieldsLoop json_loads env_vars rest (dset d f.falias (.vStr env_val))

/-- `GoogleCloudSecretSettings._build_cloud_environ` (gcp.py lines 86–122). -/
def build_cloud_environ (C : Collab) (cfg : Config) (fields : List FieldSpec) :
    Except String PyFields :=
  settingsFieldsLoop C.json_loads (cloudEnvVars C cfg) fields .fnil

/-- `env_file = _env_file if _env_file != env_file_sentinel else
config.env_file` (gcp.py line 132). -/
def resolveEnvFile (cfg : Config) : EnvFileArg → Option String
  | .sentinel => cfg.env_file
  | .noneArg => none
  | .path p => some p

/-- The `env_vars` mapping used by `_build_gcs_values` (gcp.py lines
127–142) and by the collaborator `BaseSettings._build_environ`: the base
mapping, with the local env file (when resolved and existing) merged
underneath it via pydantic's `read_env_file`. -/
def gcsEnvVarsAux (C : Collab) (cfg : Config) (env0 : EnvMap)
    (efEnc : Option String) : Option String → EnvMap
  | none => env0
  | some ef =>
    if C.is_file (C.expanduser ef) then
      pymerge
        (C.read_env_file (C.expanduser ef)
          (match efEnc with
            | some e => some e
            | none => cfg.env_file_encoding)
          cfg.case_sensitive)
        env0
    else env0

/-- The mapping above, applied to the base mapping and the resolved
`env_file`. -/
def gcsEnvVars (C : Collab) (cfg : Config) (efArg : EnvFileArg)
    (efEnc : Option String) : EnvMap :=
  gcsEnvVarsAux C cfg (baseEnvVars C cfg.case_sensitive) efEnc (resolveEnvFile cfg efArg)

/-- The body of the `for field in self.__fields__.values()` loop of
`_build_gcs_values` (gcp.py lines 145–154): act only on a `str`-valued
`cloud_key`, lower-case it unless case-sensitive, skip when the named
variable is absent or falsy (`if not env_vars.get(cloud_key)`), otherwise
store the fetch result under the field's alias. -/
def gcsKeyStep (C : Collab) (cfg : Config) (env_vars : EnvMap)
    (env : PyFields) (al : String) : Option PyVal → PyFields
  | some (.vStr ck0) =>
    match envGet env_vars (if cfg.case_sensitive then ck0 else pyLower ck0) with
    | none => env
    | some rid => if rid = "" then env else dset env al (optStr (C.fetch rid none))
  | _ => env

/-- The loop body applied to a field: dispatch on
`field.field_info.extra.get("cloud_key")` and the field's alias. -/
def gcsFieldStep (C : Collab) (cfg : Config) (env_vars : EnvMap)
    (env : PyFields) (f : FieldSpec) : PyFields :=
  gcsKeyStep C cfg env_vars env f.falias f.cloud_key

/-- `GoogleCloudSecretSettings._build_gcs_values` (gcp.py lines 124–155). -/
def build_gcs_values (C : Collab) (cfg : Config) (efArg : EnvFileArg)
    (efEnc : Option String) (fields : List FieldSpec) : PyFields :=
  fields.foldl (gcsFieldStep C cfg (gcsEnvVars C cfg efArg efEnc)) .fnil

/-- The collaborator `BaseSettings._build_environ` (pydantic, external to the
repository; spec section 4.4 layer 4): identical to `_build_cloud_environ`
except that its environment mapping has no cloud env file and instead merges
the local env file — i.e. the fields loop over `gcsEnvVars`. -/
def build_environ (C : Collab) (cfg : Config) (efArg : EnvFileArg)
    (efEnc : Option String) (fields : List FieldSpec) : Except String PyFields :=
  settingsFieldsLoop C.json_loads (gcsEnvVars C cfg efArg efEnc) fields .fnil

/-- Combine the five layers once their builders have run: a `SettingsError`
raised while building the cloud environ (first argument evaluated in the
source) or the local environ propagates; otherwise `deep_update` them in the
source's order. -/
def buildValuesCombine : Except String PyFields → PyFields → PyFields →
    Except String PyFields → PyFields → Except String PyFields
  | .error msg, _, _, _, _ => .error msg
  | .ok _, _, _, .error msg, _ => .error msg
  | .ok ce, g, s, .ok e, kw => .ok (deepUpdateList ce [g, s, e, kw])

/-- `GoogleCloudSecretSettings._build_values` (gcp.py lines 157–170):
`deep_update` of the five layers, evaluated left to right, so a
`SettingsError` from `_build_cloud_environ` or `_build_environ` propagates. -/
def build_values (C : Collab) (cfg : Config) (fields : List FieldSpec)
    (init_kwargs : PyFields) (efArg : EnvFileArg) (efEnc : Option String) :
    Except String PyFields :=
  buildValuesCombine (build_cloud_environ C cfg fields)
    (build_gcs_values C cfg efArg efEnc fields) C.secrets_files
    (build_environ C cfg efArg efEnc fields) init_kwargs

/-- Combine the three non-cloud layers (same error propagation). -/
def noncloudCombine : PyFields → Except String PyFields → PyFields →
    Except String PyFields
  | _, .error msg, _ => .error msg
  | s, .ok e, kw => .ok (deepUpdateList s [e, kw])

/-- The collaborator baseline `BaseSettings._build_values` (pydantic,
external to the repository; spec section 4.4 layers 3–5): what the non-cloud
layers alone produce — `deep_update(secrets_files, environ, init_kwargs)`. -/
def noncloud_values (C : Collab) (cfg : Config) (fields : List FieldSpec)
    (init_kwargs : PyFields) (efArg : EnvFileArg) (efEnc : Option String) :
    Except String PyFields :=
  noncloudCombine C.secrets_files (build_environ C cfg efArg efEnc fields)
    init_kwargs

/-! ## Lemmas about the dict primitives -/

/-- A list-modelled dict has no duplicate keys. -/
def NoDupKeys {α : Type} (l : List (String × α)) : Prop :=
  (l.map Prod.fst).Nodup

/-- A `PyFields` dict has no duplicate keys. -/
def NoDupKeysF (d : PyFields) : Prop := (dkeys d).Nodup

theorem alookup_eq_none_of_not_mem {α : Type} {l : List (String × α)} {k : String}
    (h : k ∉ l.map Prod.fst) : alookup l k = none := by
  induction l with
  | nil => rfl
  | cons p rest ih =>
    simp only [List.map_cons, List.mem_cons, not_or] at h
    have hk : p.1 ≠ k := fun hh => h.1 hh.symm
    simp [alookup, hk, ih h.2]

theorem rlookup_eq_none_of_not_mem {α : Type} {l : List (String × α)} {k : String}
    (h : k ∉ l.map Prod.fst) : rlookup l k = none := by
  induction l with
  | nil => rfl
  | cons p rest ih =>
    simp only [List.map_cons, List.mem_cons, not_or] at h
    have hk : p.1 ≠ k := fun hh => h.1 hh.symm
    simp [rlookup, hk, ih h.2]

theorem rlookup_eq_alookup {α : Type} {l : List (String × α)} (h : NoDupKeys l)
    (k : String) : rlookup l k = alookup l k := by
  induction l with
  | nil => rfl
  | cons p rest ih =>
    simp only [NoDupKeys, List.map_cons, List.nodup_cons] at h
    by_cases hk : p.1 = k
    · subst hk
      simp [rlookup, alookup, rlookup_eq_none_of_not_mem h.1]
    · simp only [rlookup, alookup, if_neg hk, ih h.2]
      cases alookup rest k <;> rfl

theorem alookup_append {α : Type} (d e : List (String × α)) (k : String) :
    alookup (d ++ e) k =
      match alookup d k with
      | some v => some v
      | none => alookup e k := by
  induction d with
  | nil => rfl
  | cons p rest ih =>
    by_cases hk : p.1 = k
    · simp [alookup, hk]
    · simp [alookup, hk, ih]

theorem alookup_aset_self {α : Type} (d : List (String × α)) (k : String) (v : α) :
    alookup (aset d k v) k = some v := by
  induction d with
  | nil => simp [aset, alookup]
  | cons p rest ih =>
    by_cases hk : p.1 = k
    · simp [aset, alookup, hk]
    · simp [aset, alookup, hk, ih]

theorem alookup_aset_ne {α : Type} (d : List (String × α)) {k k' : String} (v : α)
    (h : k' ≠ k) : alookup (aset d k' v) k = alookup d k := by
  induction d with
  | nil => simp [aset, alookup, h]
  | cons p rest ih =>
    by_cases hk : p.1 = k'
    · subst hk
      simp [aset, alookup, h]
    · by_cases hpk : p.1 = k
      · simp [aset, alookup, hk, hpk, h.symm]
      · simp [aset, alookup, hk, hpk, ih]

theorem alookup_foldl_aset {α : Type} (xs : List (String × α))
    (acc : List (String × α)) (k : String) :
    alookup (xs.foldl (fun a p => aset a p.1 p.2) acc) k =
      match rlookup xs k with
      | some v => some v
      | none => alookup acc k := by
  induction xs generalizing acc with
  | nil => rfl
  | cons p rest ih =>
    rw [List.foldl_cons, ih]
    by_cases hk : p.1 = k
    · subst hk
      cases hr : rlookup rest p.1 with
      | some w => simp [rlookup, hr]
      | none => simp [rlookup, hr, alookup_aset_self]
    · cases hr : rlookup rest k with
      | some w => simp [rlookup, hr]
      | none => simp [rlookup, hr, hk, alookup_aset_ne _ _ hk]

theorem alookup_pyDictOf {α : Type} (xs : List (String × α)) (k : String) :
    alookup (pyDictOf xs) k = rlookup xs k := by
  rw [pyDictOf, alookup_foldl_aset]
  cases rlookup xs k <;> rfl

theorem alookup_pymerge {α : Type} (a b : List (String × α)) (k : String) :
    alookup (pymerge a b) k =
      match rlookup b k with
      | some v => some v
      | none => rlookup a k := by
  rw [pymerge, alookup_foldl_aset]
  cases rlookup b k with
  | some v => rfl
  | none =>
    simp only []
    rw [alookup_foldl_aset]
    cases rlookup a k <;> rfl

theorem mem_keys_aset {α : Type} {d : List (String × α)} {k a : String} {v : α}
    (h : a ∈ (aset d k v).map Prod.fst) : a ∈ d.map Prod.fst ∨ a = k := by
  induction d with
  | nil => simpa [aset] using h
  | cons p rest ih =>
    by_cases hk : p.1 = k
    · simp only [aset, if_pos hk, List.map_cons, List.mem_cons] at h
      rcases h with h | h
      · exact Or.inr h
      · exact Or.inl (by simp [h])
    · simp only [aset, if_neg hk, List.map_cons, List.mem_cons] at h
      rcases h with h | h
      · exact Or.inl (by simp [h])
      · rcases ih h with h' | h'
        · exact Or.inl (by simp [h'])
        · exact Or.inr h'

theorem noDupKeys_aset {α : Type} {d : List (String × α)} (h : NoDupKeys d)
    (k : String) (v : α) : NoDupKeys (aset d k v) := by
  induction d with
  | nil => simp [aset, NoDupKeys]
  | cons p rest ih =>
    simp only [NoDupKeys, List.map_cons, List.nodup_cons] at h
    by_cases hk : p.1 = k
    · subst hk
      simpa [aset, NoDupKeys] using h
    · have := ih h.2
      simp only [NoDupKeys, aset, if_neg hk, List.map_cons, List.nodup_cons]
      refine ⟨fun hm => ?_, this⟩
      rcases mem_keys_aset hm with h' | h'
      · exact h.1 h'
      · exact hk h'

theorem noDupKeys_foldl_aset {α : Type} (xs : List (String × α))
    {acc : List (String × α)} (h : NoDupKeys acc) :
    NoDupKeys (xs.foldl (fun a p => aset a p.1 p.2) acc) := by
  induction xs generalizing acc with
  | nil => exact h
  | cons p rest ih => exact ih (noDupKeys_aset h p.1 p.2)

theorem noDupKeys_pyDictOf {α : Type} (xs : List (String × α)) :
    NoDupKeys (pyDictOf xs) :=
  noDupKeys_foldl_aset xs (by simp [NoDupKeys])

theorem noDupKeys_pymerge {α : Type} (a b : List (String × α)) :
    NoDupKeys (pymerge a b) :=
  noDupKeys_foldl_aset b (noDupKeys_foldl_aset a (by simp [NoDupKeys]))

/-! ## Lemmas about `PyFields` dicts and `deep_update` -/

/-- List-style induction for `PyFields` (which is part of a mutual family, so
the default eliminator has several motives). -/
@[induction_eliminator]
theorem pyFieldsInd {motive : PyFields → Prop} (fnil : motive .fnil)
    (fcons : ∀ (k : String) (v : PyVal) (rest : PyFields),
      motive rest → motive (.fcons k v rest)) :
    ∀ d, motive d
  | .fnil => fnil
  | .fcons k v rest => fcons k v rest (pyFieldsInd fnil fcons rest)

/-- Last-match lookup on `PyFields`. -/
def drlookup : PyFields → String → Option PyVal
  | .fnil, _ => none
  | .fcons k' v rest, k =>
    match drlookup rest k with
    | some w => some w
    | none => if k' = k then some v else none

theorem dlookup_dset_self (d : PyFields) (k : String) (v : PyVal) :
    dlookup (dset d k v) k = some v := by
  induction d with
  | fnil => simp [dset, dlookup]
  | fcons k' v' rest ih =>
    by_cases hk : k' = k
    · simp [dset, dlookup, hk]
    · simp [dset, dlookup, hk, ih]

theorem dlookup_dset_ne (d : PyFields) {k k' : String} (v : PyVal)
    (h : k' ≠ k) : dlookup (dset d k' v) k = dlookup d k := by
  induction d with
  | fnil => simp [dset, dlookup, h]
  | fcons k0 v0 rest ih =>
    by_cases hk : k0 = k'
    · subst hk
      simp [dset, dlookup, h]
    · by_cases hpk : k0 = k
      · simp [dset, dlookup, hk, hpk, h.symm]
      · simp [dset, dlookup, hk, hpk, ih]

theorem mergeOldNew_not_dict {v : PyVal} (hv : isVDict v = false)
    (old : Option PyVal) : mergeOldNew old v = v := by
  cases old with
  | none => cases v <;> rfl
  | some o =>
    cases o <;> cases v <;> first
      | rfl
      | simp [isVDict] at hv

theorem mergeOldNew_none (v : PyVal) : mergeOldNew none v = v := by
  cases v <;> rfl

theorem deepSet_eq_dset (l : PyFields) (k : String) (v : PyVal) :
    deepSet l k v = dset l k (mergeOldNew (dlookup l k) v) := rfl

theorem deepUpdate2_cons (l : PyFields) (k : String) (v : PyVal)
    (rest : PyFields) :
    deepUpdate2 l (.fcons k v rest) = deepUpdate2 (deepSet l k v) rest := rfl

theorem dlookup_deepSet_self (l : PyFields) (k : String) (v : PyVal) :
    dlookup (deepSet l k v) k = some (mergeOldNew (dlookup l k) v) := by
  rw [deepSet_eq_dset]
  exact dlookup_dset_self _ _ _

theorem dlookup_deepSet_ne (l : PyFields) {k k' : String} (v : PyVal)
    (h : k' ≠ k) : dlookup (deepSet l k' v) k = dlookup l k := by
  rw [deepSet_eq_dset]
  exact dlookup_dset_ne _ _ h

theorem dlookup_deepUpdate2_none {r : PyFields} {k : String}
    (h : dlookup r k = none) (l : PyFields) :
    dlookup (deepUpdate2 l r) k = dlookup l k := by
  induction r generalizing l with
  | fnil => rfl
  | fcons k' v' rest ih =>
    by_cases hk : k' = k
    · simp [dlookup, hk] at h
    · simp only [dlookup, if_neg hk] at h
      rw [show deepUpdate2 l (.fcons k' v' rest) = deepUpdate2 (deepSet l k' v') rest from rfl,
        ih h, dlookup_deepSet_ne _ _ hk]

theorem drlookup_none_dlookup_none {r : PyFields} {k : String}
    (h : drlookup r k = none) : dlookup r k = none := by
  induction r with
  | fnil => rfl
  | fcons k' v' rest ih =>
    simp only [drlookup] at h
    cases hr : drlookup rest k with
    | some w => simp [hr] at h
    | none =>
      simp only [hr] at h
      by_cases hk : k' = k
      · simp [hk] at h
      · simp [dlookup, hk, ih hr]

theorem dlookup_deepUpdate2_last {r : PyFields} {k : String} {v : PyVal}
    (h : drlookup r k = some v) (hv : isVDict v = false) (l : PyFields) :
    dlookup (deepUpdate2 l r) k = some v := by
  induction r generalizing l with
  | fnil => simp [drlookup] at h
  | fcons k' v' rest ih =>
    simp only [drlookup] at h
    cases hr : drlookup rest k with
    | some w =>
      simp only [hr] at h
      injection h with h2
      subst h2
      exact ih hr _
    | none =>
      simp only [hr] at h
      by_cases hk : k' = k
      · simp only [if_pos hk] at h
        injection h with h2
        subst hk
        subst h2
        rw [show deepUpdate2 l (.fcons k' v' rest) = deepUpdate2 (deepSet l k' v') rest from rfl,
          dlookup_deepUpdate2_none (drlookup_none_dlookup_none hr),
          dlookup_deepSet_self, mergeOldNew_not_dict hv]
      · simp [hk] at h

theorem dlookup_deepUpdate2_congr {l1 l2 : PyFields} {k : String}
    (h : dlookup l1 k = dlookup l2 k) (r : PyFields) :
    dlookup (deepUpdate2 l1 r) k = dlookup (deepUpdate2 l2 r) k := by
  induction r generalizing l1 l2 with
  | fnil => exact h
  | fcons k' v' rest ih =>
    rw [show deepUpdate2 l1 (.fcons k' v' rest) = deepUpdate2 (deepSet l1 k' v') rest from rfl,
      show deepUpdate2 l2 (.fcons k' v' rest) = deepUpdate2 (deepSet l2 k' v') rest from rfl]
    apply ih
    by_cases hk : k' = k
    · subst hk
      rw [dlookup_deepSet_self, dlookup_deepSet_self, h]
    · rw [dlookup_deepSet_ne _ _ hk, dlookup_deepSet_ne _ _ hk, h]

theorem dappend_fnil (d : PyFields) : dappend d .fnil = d := by
  induction d with
  | fnil => rfl
  | fcons k v rest ih => simp [dappend, ih]

theorem dappend_assoc (a b c : PyFields) :
    dappend (dappend a b) c = dappend a (dappend b c) := by
  induction a with
  | fnil => rfl
  | fcons k v rest ih => simp [dappend, ih]

theorem dlookup_dappend (a b : PyFields) (k : String) :
    dlookup (dappend a b) k =
      match dlookup a k with
      | some v => some v
      | none => dlookup b k := by
  induction a with
  | fnil => rfl
  | fcons k' v rest ih =>
    by_cases hk : k' = k
    · simp [dappend, dlookup, hk]
    · simp [dappend, dlookup, hk, ih]

theorem dset_of_dlookup_none {d : PyFields} {k : String}
    (h : dlookup d k = none) (v : PyVal) :
    dset d k v = dappend d (.fcons k v .fnil) := by
  induction d with
  | fnil => rfl
  | fcons k' v' rest ih =>
    by_cases hk : k' = k
    · simp [dlookup, hk] at h
    · simp only [dlookup, if_neg hk] at h
      simp [dset, dappend, hk, ih h]

theorem deepUpdate2_fresh {r : PyFields} (hnd : NoDupKeysF r) :
    ∀ acc : PyFields, (∀ key ∈ dkeys r, dlookup acc key = none) →
      deepUpdate2 acc r = dappend acc r := by
  induction r with
  | fnil => intro acc _; exact (dappend_fnil acc).symm
  | fcons k v rest ih =>
    intro acc hacc
    simp only [NoDupKeysF, dkeys, List.nodup_cons] at hnd
    have hk : dlookup acc k = none := hacc k (by simp [dkeys])
    have hstep : deepSet acc k v = dappend acc (.fcons k v .fnil) := by
      rw [deepSet_eq_dset, hk]
      rw [show mergeOldNew none v = v from by cases v <;> rfl]
      exact dset_of_dlookup_none hk v
    rw [show deepUpdate2 acc (.fcons k v rest) = deepUpdate2 (deepSet acc k v) rest from rfl,
      hstep, ih hnd.2]
    · rw [dappend_assoc]
      rfl
    · intro key hkey
      rw [dlookup_dappend]
      have hne : k ≠ key := fun hh => hnd.1 (hh ▸ hkey)
      rw [hacc key (by simp [dkeys, hkey])]
      simp [dlookup, hne]

theorem deepUpdate2_fnil_left {r : PyFields} (hnd : NoDupKeysF r) :
    deepUpdate2 .fnil r = r := by
  rw [deepUpdate2_fresh hnd .fnil (fun _ _ => rfl)]
  rfl

theorem dlookup_eq_none_of_not_mem {d : PyFields} {k : String}
    (h : k ∉ dkeys d) : dlookup d k = none := by
  induction d with
  | fnil => rfl
  | fcons k' v rest ih =>
    simp only [dkeys, List.mem_cons, not_or] at h
    have hk : k' ≠ k := fun hh => h.1 hh.symm
    simp [dlookup, hk, ih h.2]

theorem drlookup_eq_none_of_not_mem {d : PyFields} {k : String}
    (h : k ∉ dkeys d) : drlookup d k = none := by
  induction d with
  | fnil => rfl
  | fcons k' v rest ih =>
    simp only [dkeys, List.mem_cons, not_or] at h
    have hk : k' ≠ k := fun hh => h.1 hh.symm
    simp [drlookup, hk, ih h.2]

theorem drlookup_eq_dlookup {d : PyFields} (h : NoDupKeysF d) (k : String) :
    drlookup d k = dlookup d k := by
  induction d with
  | fnil => rfl
  | fcons k' v rest ih =>
    simp only [NoDupKeysF, dkeys, List.nodup_cons] at h
    by_cases hk : k' = k
    · subst hk
      simp [drlookup, dlookup, drlookup_eq_none_of_not_mem h.1]
    · simp only [drlookup, dlookup, if_neg hk, ih h.2]
      cases dlookup rest k <;> rfl

theorem mem_dkeys_dset {d : PyFields} {k a : String} {v : PyVal}
    (h : a ∈ dkeys (dset d k v)) : a ∈ dkeys d ∨ a = k := by
  induction d with
  | fnil => simpa [dset, dkeys] using h
  | fcons k' v' rest ih =>
    by_cases hk : k' = k
    · simp only [dset, if_pos hk, dkeys, List.mem_cons] at h
      rcases h with h | h
      · exact Or.inr h
      · exact Or.inl (by simp [dkeys, h])
    · simp only [dset, if_neg hk, dkeys, List.mem_cons] at h
      rcases h with h | h
      · exact Or.inl (by simp [dkeys, h])
      · rcases ih h with h' | h'
        · exact Or.inl (by simp [dkeys, h'])
        · exact Or.inr h'

theorem noDupKeysF_dset {d : PyFields} (h : NoDupKeysF d) (k : String)
    (v : PyVal) : NoDupKeysF (dset d k v) := by
  induction d with
  | fnil => simp [dset, NoDupKeysF, dkeys]
  | fcons k' v' rest ih =>
    simp only [NoDupKeysF, dkeys, List.nodup_cons] at h
    by_cases hk : k' = k
    · subst hk
      simp only [dset, if_pos rfl, NoDupKeysF, dkeys, List.nodup_cons]
      exact h
    · have := ih h.2
      simp only [NoDupKeysF, dset, if_neg hk, dkeys, List.nodup_cons]
      refine ⟨fun hm => ?_, this⟩
      rcases mem_dkeys_dset hm with h' | h'
      · exact h.1 h'
      · exact hk h'

/-! ## Lemmas about the resolver loops -/

/-- Does a field carry a `str`-valued `cloud_key`? -/
def hasStrCloudKey (f : FieldSpec) : Bool :=
  match f.cloud_key with
  | some (.vStr _) => true
  | _ => false

theorem gcsFieldStep_no_key {C : Collab} {cfg : Config} {env_vars : EnvMap}
    {f : FieldSpec} (h : hasStrCloudKey f = false) (env : PyFields) :
    gcsFieldStep C cfg env_vars env f = env := by
  unfold gcsFieldStep
  cases hck : f.cloud_key with
  | none => rfl
  | some v =>
    cases v with
    | vStr ck0 =>
      have ht : hasStrCloudKey f = true := by simp [hasStrCloudKey, hck]
      rw [ht] at h
      cases h
    | vNone => rfl
    | vInt n => rfl
    | vBool b => rfl
    | vList xs => rfl
    | vDict d => rfl

theorem gcsFieldStep_hit {C : Collab} {cfg : Config} {env_vars : EnvMap}
    {f : FieldSpec} {ck0 : String} {rid : String}
    (hck : f.cloud_key = some (.vStr ck0))
    (hg : envGet env_vars (if cfg.case_sensitive then ck0 else pyLower ck0) = some rid)
    (hr : rid ≠ "") (env : PyFields) :
    gcsFieldStep C cfg env_vars env f =
      dset env f.falias (optStr (C.fetch rid none)) := by
  unfold gcsFieldStep
  rw [hck]
  simp only [gcsKeyStep]
  rw [hg]
  simp [hr]

theorem gcsFieldStep_miss {C : Collab} {cfg : Config} {env_vars : EnvMap}
    {f : FieldSpec} {ck0 : String}
    (hck : f.cloud_key = some (.vStr ck0))
    (hg : envGet env_vars (if cfg.case_sensitive then ck0 else pyLower ck0) = none
      ∨ envGet env_vars (if cfg.case_sensitive then ck0 else pyLower ck0) = some "")
    (env : PyFields) :
    gcsFieldStep C cfg env_vars env f = env := by
  unfold gcsFieldStep
  rw [hck]
  simp only [gcsKeyStep]
  rcases hg with hg | hg
  · rw [hg]
  · rw [hg]
    simp

theorem dlookup_gcsFieldStep_skip {C : Collab} {cfg : Config}
    {env_vars : EnvMap} {f : FieldSpec} {a : String}
    (h : f.falias = a → hasStrCloudKey f = false) (env : PyFields) :
    dlookup (gcsFieldStep C cfg env_vars env f) a = dlookup env a := by
  by_cases ha : f.falias = a
  · rw [gcsFieldStep_no_key (h ha)]
  · unfold gcsFieldStep
    cases hck : f.cloud_key with
    | none => rfl
    | some v =>
      cases v with
      | vStr ck0 =>
        simp only [gcsKeyStep]
        cases hg : envGet env_vars (if cfg.case_sensitive then ck0 else pyLower ck0) with
        | none => rfl
        | some rid =>
          by_cases hr : rid = ""
          · simp [hr]
          · simp [hr, dlookup_dset_ne _ _ ha]
      | vNone => rfl
      | vInt n => rfl
      | vBool b => rfl
      | vList xs => rfl
      | vDict d => rfl

theorem dlookup_gcs_fold_none {C : Collab} {cfg : Config} {env_vars : EnvMap}
    {a : String} :
    ∀ (fields : List FieldSpec),
      (∀ g ∈ fields, g.falias = a → hasStrCloudKey g = false) →
      ∀ acc : PyFields,
        dlookup (fields.foldl (gcsFieldStep C cfg env_vars) acc) a = dlookup acc a
  | [], _, _ => rfl
  | g :: rest, h, acc => by
    rw [List.foldl_cons,
      dlookup_gcs_fold_none rest (fun g' hg' => h g' (List.mem_cons_of_mem _ hg')) _,
      dlookup_gcsFieldStep_skip (h g (List.mem_cons_self _ _))]

theorem dlookup_gcsFieldStep_cases (C : Collab) (cfg : Config)
    (env_vars : EnvMap) (env : PyFields) (f : FieldSpec) (k : String) :
    dlookup (gcsFieldStep C cfg env_vars env f) k = dlookup env k ∨
      ∃ o, dlookup (gcsFieldStep C cfg env_vars env f) k = some (optStr o) := by
  unfold gcsFieldStep
  cases hck : f.cloud_key with
  | none => exact Or.inl rfl
  | some v =>
    cases v with
    | vStr ck0 =>
      simp only [gcsKeyStep]
      cases hg : envGet env_vars (if cfg.case_sensitive then ck0 else pyLower ck0) with
      | none => exact Or.inl rfl
      | some rid =>
        by_cases hr : rid = ""
        · simp [hr]
        · by_cases ha : f.falias = k
          · subst ha
            refine Or.inr ⟨C.fetch rid none, ?_⟩
            simp [hr, dlookup_dset_self]
          · refine Or.inl ?_
            simp [hr, dlookup_dset_ne _ _ ha]
    | vNone => exact Or.inl rfl
    | vInt n => exact Or.inl rfl
    | vBool b => exact Or.inl rfl
    | vList xs => exact Or.inl rfl
    | vDict d => exact Or.inl rfl

theorem dlookup_gcs_fold_shape {C : Collab} {cfg : Config} {env_vars : EnvMap}
    {k : String} {v : PyVal} :
    ∀ (fields : List FieldSpec) (acc : PyFields),
      dlookup (fields.foldl (gcsFieldStep C cfg env_vars) acc) k = some v →
      dlookup acc k = some v ∨ ∃ o, v = optStr o
  | [], _, h => Or.inl h
  | g :: rest, acc, h => by
    rw [List.foldl_cons] at h
    rcases dlookup_gcs_fold_shape rest _ h with h' | h'
    · rcases dlookup_gcsFieldStep_cases C cfg env_vars acc g k with h2 | ⟨o, h2⟩
      · exact Or.inl (h2 ▸ h')
      · rw [h2] at h'
        exact Or.inr ⟨o, Option.some_injective _ h'.symm⟩
    · exact Or.inr h'

theorem noDupKeysF_gcsFieldStep {C : Collab} {cfg : Config} {env_vars : EnvMap}
    {acc : PyFields} (h : NoDupKeysF acc) (g : FieldSpec) :
    NoDupKeysF (gcsFieldStep C cfg env_vars acc g) := by
  unfold gcsFieldStep
  cases hck : g.cloud_key with
  | none => exact h
  | some v =>
    cases v with
    | vStr ck0 =>
      simp only [gcsKeyStep]
      cases hg : envGet env_vars (if cfg.case_sensitive then ck0 else pyLower ck0) with
      | none => exact h
      | some rid =>
        by_cases hr : rid = ""
        · simp only [if_pos hr]
          exact h
        · simp only [if_neg hr]
          exact noDupKeysF_dset h _ _
    | vNone => exact h
    | vInt n => exact h
    | vBool b => exact h
    | vList xs => exact h
    | vDict d => exact h

theorem noDupKeysF_gcs_fold {C : Collab} {cfg : Config} {env_vars : EnvMap} :
    ∀ (fields : List FieldSpec) {acc : PyFields}, NoDupKeysF acc →
      NoDupKeysF (fields.foldl (gcsFieldStep C cfg env_vars) acc)
  | [], _, h => h
  | g :: rest, acc, h => by
    rw [List.foldl_cons]
    exact noDupKeysF_gcs_fold rest (noDupKeysF_gcsFieldStep h g)

theorem loop_ok_nobind {jl : String → Except String PyVal} {ev : EnvMap}
    {a : String} :
    ∀ (fields : List FieldSpec), (∀ g ∈ fields, g.falias ≠ a) →
      ∀ (d out : PyFields), settingsFieldsLoop jl ev fields d = .ok out →
        dlookup out a = dlookup d a
  | [], _, d, out, hok => by
    simp only [settingsFieldsLoop] at hok
    cases hok
    rfl
  | f :: rest, h, d, out, hok => by
    have hf : f.falias ≠ a := h f (List.mem_cons_self _ _)
    have hrest : ∀ g ∈ rest, g.falias ≠ a :=
      fun g hg => h g (List.mem_cons_of_mem _ hg)
    simp only [settingsFieldsLoop] at hok
    split at hok
    · exact loop_ok_nobind rest hrest d out hok
    · split at hok
      · split at hok
        · rw [loop_ok_nobind rest hrest _ out hok, dlookup_dset_ne _ _ hf]
        · exact Except.noConfusion hok
      · rw [loop_ok_nobind rest hrest _ out hok, dlookup_dset_ne _ _ hf]

theorem loop_ok_vstr {jl : String → Except String PyVal} {ev : EnvMap}
    {a : String} :
    ∀ (fields : List FieldSpec),
      (∀ g ∈ fields, g.falias = a → g.is_complex = false) →
      ∀ (d out : PyFields), settingsFieldsLoop jl ev fields d = .ok out →
        dlookup out a = dlookup d a ∨ ∃ s, dlookup out a = some (.vStr s)
  | [], _, d, out, hok => by
    simp only [settingsFieldsLoop] at hok
    cases hok
    exact Or.inl rfl
  | f :: rest, h, d, out, hok => by
    have hrest : ∀ g ∈ rest, g.falias = a → g.is_complex = false :=
      fun g hg => h g (List.mem_cons_of_mem _ hg)
    simp only [settingsFieldsLoop] at hok
    split at hok
    · exact loop_ok_vstr rest hrest d out hok
    · split at hok
      · split at hok
        · have hf : f.falias ≠ a := by
            intro ha
            have := h f (List.mem_cons_self _ _) ha
            simp_all
          rcases loop_ok_vstr rest hrest _ out hok with h' | h'
          · rw [h', dlookup_dset_ne _ _ hf]
            exact Or.inl rfl
          · exact Or.inr h'
        · exact Except.noConfusion hok
      · by_cases hf : f.falias = a
        · subst hf
          rcases loop_ok_vstr rest hrest _ out hok with h' | h'
          · rw [h', dlookup_dset_self]
            exact Or.inr ⟨_, rfl⟩
          · exact Or.inr h'
        · rcases loop_ok_vstr rest hrest _ out hok with h' | h'
          · rw [h', dlookup_dset_ne _ _ hf]
            exact Or.inl rfl
          · exact Or.inr h'

theorem loop_ok_nodup {jl : String → Except String PyVal} {ev : EnvMap} :
    ∀ (fields : List FieldSpec) (d out : PyFields),
      settingsFieldsLoop jl ev fields d = .ok out → NoDupKeysF d →
        NoDupKeysF out
  | [], d, out, hok, hd => by
    simp only [settingsFieldsLoop] at hok
    cases hok
    exact hd
  | f :: rest, d, out, hok, hd => by
    simp only [settingsFieldsLoop] at hok
    split at hok
    · exact loop_ok_nodup rest d out hok hd
    · split at hok
      · split at hok
        · exact loop_ok_nodup rest _ out hok (noDupKeysF_dset hd _ _)
        · exact Except.noConfusion hok
      · exact loop_ok_nodup rest _ out hok (noDupKeysF_dset hd _ _)

theorem firstHit_mono {e1 e2 : EnvMap}
    (hm : ∀ n v, envGet e1 n = some v → ∃ w, envGet e2 n = some w) :
    ∀ (names : List String) (p : String × String),
      firstHit e1 names = some p → ∃ q, firstHit e2 names = some q
  | [], _, h => by simp [firstHit] at h
  | n :: rest, p, h => by
    simp only [firstHit] at h ⊢
    cases h1 : envGet e1 n with
    | some v =>
      obtain ⟨w, h2⟩ := hm n v h1
      exact ⟨(n, w), by rw [h2]⟩
    | none =>
      rw [h1] at h
      cases h2 : envGet e2 n with
      | some w => exact ⟨(n, w), rfl⟩
      | none => exact firstHit_mono hm rest p h

theorem loop_hit_transfer {jl : String → Except String PyVal}
    {ev1 ev2 : EnvMap} {a : String}
    (hm : ∀ n v, envGet ev1 n = some v → ∃ w, envGet ev2 n = some w) :
    ∀ (fields : List FieldSpec),
      (∀ g ∈ fields, g.falias = a → g.is_complex = false) →
      ∀ (d1 d2 out1 out2 : PyFields),
        settingsFieldsLoop jl ev1 fields d1 = .ok out1 →
        settingsFieldsLoop jl ev2 fields d2 = .ok out2 →
        (dlookup d1 a ≠ none → ∃ s, dlookup d2 a = some (.vStr s)) →
        dlookup out1 a ≠ none → ∃ s, dlookup out2 a = some (.vStr s)
  | [], _, d1, d2, out1, out2, hok1, hok2, hinv, hne => by
    simp only [settingsFieldsLoop] at hok1 hok2
    cases hok1
    cases hok2
    exact hinv hne
  | f :: rest, h, d1, d2, out1, out2, hok1, hok2, hinv, hne => by
    have hrest : ∀ g ∈ rest, g.falias = a → g.is_complex = false :=
      fun g hg => h g (List.mem_cons_of_mem _ hg)
    simp only [settingsFieldsLoop] at hok1 hok2
    split at hok1
    next hstep1 =>
      -- the first loop skipped `f`
      split at hok2
      next hstep2 =>
        exact loop_hit_transfer hm rest hrest _ _ _ _ hok1 hok2 hinv hne
      next n2 s2 hstep2 =>
        split at hok2
        next hcx =>
          split at hok2
          next v2 hjl =>
            refine loop_hit_transfer hm rest hrest _ _ _ _ hok1 hok2 ?_ hne
            intro hd
            by_cases hfa : f.falias = a
            · have := h f (List.mem_cons_self _ _) hfa
              rw [this] at hcx
              cases hcx
            · obtain ⟨s, hs⟩ := hinv hd
              exact ⟨s, by rw [dlookup_dset_ne _ _ hfa, hs]⟩
          next hjl => exact Except.noConfusion hok2
        next hcx =>
          refine loop_hit_transfer hm rest hrest _ _ _ _ hok1 hok2 ?_ hne
          intro hd
          by_cases hfa : f.falias = a
          · exact ⟨s2, by rw [← hfa, dlookup_dset_self]⟩
          · obtain ⟨s, hs⟩ := hinv hd
            exact ⟨s, by rw [dlookup_dset_ne _ _ hfa, hs]⟩
    next n1 s1 hstep1 =>
      -- the first loop hit `f`; by monotonicity so does the second
      obtain ⟨q, hq⟩ := firstHit_mono hm f.env_names _ hstep1
      split at hok2
      next hstep2 =>
        rw [hstep2] at hq
        exact Option.noConfusion hq
      next n2 s2 hstep2 =>
        -- discharge the four if/decode combinations
        split at hok1
        next hcx =>
          split at hok1
          next v1 hjl1 =>
            have hfa : f.falias ≠ a := by
              intro hfa
              have := h f (List.mem_cons_self _ _) hfa
              rw [this] at hcx
              cases hcx
            rw [if_pos hcx] at hok2
            split at hok2
            next v2 hjl2 =>
              refine loop_hit_transfer hm rest hrest _ _ _ _ hok1 hok2 ?_ hne
              intro hd
              rw [dlookup_dset_ne _ _ hfa] at hd
              obtain ⟨s, hs⟩ := hinv hd
              exact ⟨s, by rw [dlookup_dset_ne _ _ hfa, hs]⟩
            next hjl2 => exact Except.noConfusion hok2
          next hjl1 => exact Except.noConfusion hok1
        next hcx =>
          rw [if_neg hcx] at hok2
          refine loop_hit_transfer hm rest hrest _ _ _ _ hok1 hok2 ?_ hne
          intro hd
          by_cases hfa : f.falias = a
          · exact ⟨s2, by rw [← hfa, dlookup_dset_self]⟩
          · rw [dlookup_dset_ne _ _ hfa] at hd
            obtain ⟨s, hs⟩ := hinv hd
            exact ⟨s, by rw [dlookup_dset_ne _ _ hfa, hs]⟩

/-! ## Support lemmas about the environment mappings -/

theorem alookup_map_some (l : List (String × String)) (k : String) :
    alookup (l.map fun p => (p.1, some p.2)) k = (alookup l k).map some := by
  induction l with
  | nil => rfl
  | cons p rest ih =>
    by_cases hk : p.1 = k
    · simp [alookup, hk]
    · simp [alookup, hk, ih]

theorem noDupKeys_map_some {l : List (String × String)} (h : NoDupKeys l) :
    NoDupKeys (l.map fun p => (p.1, some p.2)) := by
  simpa [NoDupKeys, List.map_map, Function.comp] using h

theorem noDupKeys_baseEnvVars {C : Collab} (h : NoDupKeys C.os_environ)
    (cs : Bool) : NoDupKeys (baseEnvVars C cs) := by
  unfold baseEnvVars
  by_cases hcs : cs = true
  · rw [if_pos hcs]
    exact noDupKeys_map_some h
  · rw [if_neg hcs]
    exact noDupKeys_pyDictOf _

theorem aset_of_alookup_none {α : Type} {d : List (String × α)} {k : String}
    (h : alookup d k = none) (v : α) : aset d k v = d ++ [(k, v)] := by
  induction d with
  | nil => rfl
  | cons p rest ih =>
    by_cases hk : p.1 = k
    · simp [alookup, hk] at h
    · simp only [alookup, if_neg hk] at h
      simp [aset, hk, ih h]

theorem foldl_aset_fresh {α : Type} :
    ∀ {e : List (String × α)}, NoDupKeys e →
      ∀ acc : List (String × α), (∀ p ∈ e, alookup acc p.1 = none) →
        e.foldl (fun a p => aset a p.1 p.2) acc = acc ++ e
  | [], _, acc, _ => by simp
  | p :: rest, h, acc, hfresh => by
    have h' : NoDupKeys rest := by
      simp only [NoDupKeys, List.map_cons, List.nodup_cons] at h
      exact h.2
    have hp : p.1 ∉ rest.map Prod.fst := by
      simp only [NoDupKeys, List.map_cons, List.nodup_cons] at h
      exact h.1
    rw [List.foldl_cons, aset_of_alookup_none (hfresh p (List.mem_cons_self _ _)),
      foldl_aset_fresh h' _ ?_]
    · simp
    · intro q hq
      rw [alookup_append]
      rw [hfresh q (List.mem_cons_of_mem _ hq)]
      have hne : p.1 ≠ q.1 := fun hh => hp (hh ▸ List.mem_map_of_mem Prod.fst hq)
      simp [alookup, hne]

theorem pymerge_nil_left {α : Type} {e : List (String × α)} (h : NoDupKeys e) :
    pymerge [] e = e := by
  unfold pymerge
  rw [show ([] : List (String × α)).foldl (fun a p => aset a p.1 p.2) [] = [] from rfl,
    foldl_aset_fresh h [] (fun _ _ => rfl)]
  rfl

theorem isVDict_optStr (o : Option String) : isVDict (optStr o) = false := by
  cases o <;> rfl

theorem alookup_none_not_mem {α : Type} {l : List (String × α)} {k : String}
    (h : alookup l k = none) : k ∉ l.map Prod.fst := by
  induction l with
  | nil => simp
  | cons p rest ih =>
    by_cases hk : p.1 = k
    · simp [alookup, hk] at h
    · simp only [alookup, if_neg hk] at h
      simp only [List.map_cons, List.mem_cons, not_or]
      exact ⟨fun hh => hk hh.symm, ih h⟩

/-! ## Claims -/

/-- The concrete collaborator bundle of the end-to-end scenario of the spec
(section 8): the environment holds
`TOKEN_SECRET_REF=projects/p/secrets/s/versions/latest`, and the secret store
returns `"abc123"` for that resource name. -/
def scenarioCollab : Collab where
  fetch := fun k _ =>
    if k = "projects/p/secrets/s/versions/latest" then some "abc123" else none
  dotenv_values := fun _ => []
  json_loads := fun _ => .error "not JSON"
  read_env_file := fun _ _ _ => []
  is_file := fun _ => false
  expanduser := fun p => p
  os_environ := [("TOKEN_SECRET_REF", "projects/p/secrets/s/versions/latest")]
  secrets_files := .fnil

/-- A default configuration: case-insensitive, no env files. -/
def scenarioConfig : Config where
  case_sensitive := false
  env_file := none
  env_file_encoding := none
  cloud_env_file := none
  cloud_env_file_encoding := none

/-- The field `TOKEN` declared with `cloud_key="TOKEN_SECRET_REF"`. -/
def tokenField : FieldSpec where
  falias := "TOKEN"
  env_names := ["token"]
  is_complex := false
  cloud_key := some (.vStr "TOKEN_SECRET_REF")

/-- Claim C8: in the scenario above the resolved value for `TOKEN` is
`"abc123"`; when the constructor is additionally called with
`TOKEN="override"`, the resolved value is `"override"`. -/
theorem C8_end_to_end_scenario :
    build_values scenarioCollab scenarioConfig [tokenField] .fnil .sentinel none
        = .ok (.fcons "TOKEN" (.vStr "abc123") .fnil) ∧
      build_values scenarioCollab scenarioConfig [tokenField]
          (.fcons "TOKEN" (.vStr "override") .fnil) .sentinel none
        = .ok (.fcons "TOKEN" (.vStr "override") .fnil) :=
  ⟨rfl, rfl⟩

/-- A client whose secret payload decodes fine under the default encoding but
whose decode raises `LookupError` for the unknown codec `"bogus"` — exactly
what `bytes.decode(encoding="bogus")` does in Python. -/
def bogusEncodingAccess : String → Except PyExc (List Nat) := fun _ => .ok [65]

/-- See `bogusEncodingAccess`. -/
def bogusEncodingDecode : List Nat → Option String → Except PyExc String :=
  fun _ enc =>
    match enc with
    | some "bogus" => .error (.lookupError "unknown encoding: bogus")
    | _ => .ok "A"

/-- Claim C2, counterexample: `get_google_cloud_secret` catches only
`GoogleAuthError` and `GoogleAPIError`; an exception raised while decoding
the payload (here a `LookupError` for an unknown encoding) propagates to the
caller, so "no exception of any kind propagates" fails at this input. -/
theorem C2_counterexample :
    get_google_cloud_secret bogusEncodingAccess bogusEncodingDecode
        "projects/p/secrets/s/versions/latest" (some "bogus")
      = .error (.lookupError "unknown encoding: bogus") := rfl

/-- Claim C2, amended: `get_google_cloud_secret` returns the decoded payload
on success; a `GoogleAuthError` or `GoogleAPIError` raised by the client call
or the decode is caught (and logged) and yields `None`; any exception that
does propagate is outside those two classes (e.g. a decode `LookupError` or
`UnicodeDecodeError`). -/
theorem C2_fetch_failure_policy
    (access_secret_version : String → Except PyExc (List Nat))
    (decode : List Nat → Option String → Except PyExc String)
    (key : String) (encoding : Option String) :
    (∀ e, access_secret_version key = .error e → caughtByFetch e = true →
      get_google_cloud_secret access_secret_version decode key encoding = .ok none) ∧
    (∀ p e, access_secret_version key = .ok p → decode p encoding = .error e →
      caughtByFetch e = true →
      get_google_cloud_secret access_secret_version decode key encoding = .ok none) ∧
    (∀ p s, access_secret_version key = .ok p → decode p encoding = .ok s →
      get_google_cloud_secret access_secret_version decode key encoding = .ok (some s)) ∧
    (∀ e, get_google_cloud_secret access_secret_version decode key encoding = .error e →
      caughtByFetch e = false) := by
  refine ⟨?_, ?_, ?_, ?_⟩
  · intro e ha hc
    unfold get_google_cloud_secret
    rw [ha]
    simp [fetchBody, fetchCatch, hc]
  · intro p e ha hd hc
    unfold get_google_cloud_secret
    rw [ha]
    simp [fetchBody, fetchCatch, hd, hc]
  · intro p s ha hd
    unfold get_google_cloud_secret
    rw [ha]
    simp [fetchBody, fetchCatch, hd]
  · intro e h
    unfold get_google_cloud_secret at h
    cases hb : fetchBody decode encoding (access_secret_version key) with
    | ok s =>
      rw [hb] at h
      simp [fetchCatch] at h
    | error e' =>
      rw [hb] at h
      by_cases hc : caughtByFetch e' = true
      · simp [fetchCatch, hc] at h
      · simp only [fetchCatch, Bool.not_eq_true] at h hc
        rw [hc] at h
        simp only [Bool.false_eq_true, if_false] at h
        injection h with h2
        rw [← h2]
        exact hc

/-- Witness for C2's amended theorem: a simulated authentication failure
yields `None`. -/
theorem C2_fetch_failure_policy_witness :
    get_google_cloud_secret (fun _ => .error (.googleAuthError "denied"))
        (fun _ _ => .ok "") "projects/p/secrets/s/versions/latest" none
      = .ok none :=
  (C2_fetch_failure_policy (fun _ => .error (.googleAuthError "denied"))
      (fun _ _ => .ok "") "projects/p/secrets/s/versions/latest" none).1
    (.googleAuthError "denied") rfl rfl

/-- A collaborator bundle whose secret store fails on every fetch (the
observable behaviour of `get_google_cloud_secret` under a simulated
authentication failure: it returns `None`), with
`token_ref=projects/x` in the environment. -/
def failingFetchCollab : Collab where
  fetch := fun _ _ => none
  dotenv_values := fun _ => []
  json_loads := fun _ => .error "not JSON"
  read_env_file := fun _ _ _ => []
  is_file := fun _ => false
  expanduser := fun p => p
  os_environ := [("token_ref", "projects/x")]
  secrets_files := .fnil

/-- The field `TOKEN` declared with `cloud_key="TOKEN_REF"`. -/
def tokenRefField : FieldSpec where
  falias := "TOKEN"
  env_names := ["token"]
  is_complex := false
  cloud_key := some (.vStr "TOKEN_REF")

/-- Claim C5, counterexample: when the secret fetch fails, the cloud
per-field secret layer does NOT leave the field unset — it binds the field's
alias to `None` (`env[field.alias] = get_google_cloud_secret(...)`, gcp.py
line 154).  At this input the layer is `{"TOKEN": None}`, not `{}`. -/
theorem C5_counterexample :
    build_gcs_values failingFetchCollab scenarioConfig .noneArg none [tokenRefField]
        = .fcons "TOKEN" .vNone .fnil ∧
      dlookup (build_gcs_values failingFetchCollab scenarioConfig .noneArg none
          [tokenRefField]) "TOKEN" ≠ none := by
  refine ⟨rfl, ?_⟩
  intro h
  rw [show dlookup (build_gcs_values failingFetchCollab scenarioConfig .noneArg none
      [tokenRefField]) "TOKEN" = some PyVal.vNone from rfl] at h
  exact Option.noConfusion h

/-- Claim C5, amended: when the cloud-key variable is present and non-falsy
but the secret fetch fails, the cloud per-field secret layer binds the
field's alias to `None` (so a later layer can still override it, but the
field is not left unset and the declared default would not apply). -/
theorem C5_fetch_failure_binds_none (C : Collab) (cfg : Config)
    (efArg : EnvFileArg) (efEnc : Option String) (f : FieldSpec) (ck0 rid : String)
    (hck : f.cloud_key = some (.vStr ck0))
    (hg : envGet (gcsEnvVars C cfg efArg efEnc)
        (if cfg.case_sensitive then ck0 else pyLower ck0) = some rid)
    (hr : rid ≠ "") (hfail : C.fetch rid none = none) :
    build_gcs_values C cfg efArg efEnc [f] = .fcons f.falias .vNone .fnil := by
  unfold build_gcs_values
  rw [List.foldl_cons, List.foldl_nil, gcsFieldStep_hit hck hg hr, hfail]
  rfl

/-- Witness for C5's amended theorem at the counterexample's input. -/
theorem C5_fetch_failure_binds_none_witness :
    build_gcs_values failingFetchCollab scenarioConfig .noneArg none [tokenRefField]
      = .fcons "TOKEN" .vNone .fnil :=
  C5_fetch_failure_binds_none failingFetchCollab scenarioConfig .noneArg none
    tokenRefField "TOKEN_REF" "projects/x" rfl rfl (by decide) rfl

/-- Claim C3: the per-field secret resolver visits every declared field
exactly once, in declaration order (clause 1: the resolver is the fold of the
per-field step); for a field with a string `cloud_key` it normalizes the name
per the case-sensitivity configuration and looks it up in the
environment-like mapping: an absent or falsy identifier contributes no entry
(clause 2), otherwise the secret fetcher is called on the identifier and the
result is stored under the field's alias (clause 3); with case-sensitivity
disabled, `cloud_key="MY_KEY"` matches the environment variable `my_key`
(clause 4). -/
theorem C3_per_field_resolver (C : Collab) (cfg : Config) (efArg : EnvFileArg)
    (efEnc : Option String) :
    (∀ (fs gs : List FieldSpec),
      build_gcs_values C cfg efArg efEnc (fs ++ gs)
        = gs.foldl (gcsFieldStep C cfg (gcsEnvVars C cfg efArg efEnc))
            (build_gcs_values C cfg efArg efEnc fs)) ∧
    (∀ (f : FieldSpec) (ck0 : String), f.cloud_key = some (.vStr ck0) →
      (envGet (gcsEnvVars C cfg efArg efEnc)
          (if cfg.case_sensitive then ck0 else pyLower ck0) = none ∨
        envGet (gcsEnvVars C cfg efArg efEnc)
          (if cfg.case_sensitive then ck0 else pyLower ck0) = some "") →
      build_gcs_values C cfg efArg efEnc [f] = .fnil) ∧
    (∀ (f : FieldSpec) (ck0 rid : String), f.cloud_key = some (.vStr ck0) →
      envGet (gcsEnvVars C cfg efArg efEnc)
          (if cfg.case_sensitive then ck0 else pyLower ck0) = some rid →
      rid ≠ "" →
      build_gcs_values C cfg efArg efEnc [f]
        = .fcons f.falias (optStr (C.fetch rid none)) .fnil) ∧
    (∀ (f : FieldSpec) (rid : String), cfg.case_sensitive = false →
      f.cloud_key = some (.vStr "MY_KEY") →
      envGet (gcsEnvVars C cfg efArg efEnc) "my_key" = some rid → rid ≠ "" →
      dlookup (build_gcs_values C cfg efArg efEnc [f]) f.falias
        = some (optStr (C.fetch rid none))) := by
  refine ⟨?_, ?_, ?_, ?_⟩
  · intro fs gs
    unfold build_gcs_values
    rw [List.foldl_append]
  · intro f ck0 hck hg
    unfold build_gcs_values
    rw [List.foldl_cons, List.foldl_nil, gcsFieldStep_miss hck hg]
  · intro f ck0 rid hck hg hr
    unfold build_gcs_values
    rw [List.foldl_cons, List.foldl_nil, gcsFieldStep_hit hck hg hr]
    rfl
  · intro f rid hcs hck hg hr
    unfold build_gcs_values
    rw [List.foldl_cons, List.foldl_nil,
      gcsFieldStep_hit hck (by rw [hcs]; exact hg) hr]
    exact dlookup_dset_self _ _ _

/-- A collaborator bundle with `my_key=projects/q` in the environment and a
store that knows that resource. -/
def myKeyCollab : Collab where
  fetch := fun k _ => if k = "projects/q" then some "secret-payload" else none
  dotenv_values := fun _ => []
  json_loads := fun _ => .error "not JSON"
  read_env_file := fun _ _ _ => []
  is_file := fun _ => false
  expanduser := fun p => p
  os_environ := [("my_key", "projects/q")]
  secrets_files := .fnil

/-- A field whose `cloud_key` is the upper-case `"MY_KEY"`. -/
def myKeyField : FieldSpec where
  falias := "K"
  env_names := ["k"]
  is_complex := false
  cloud_key := some (.vStr "MY_KEY")

/-- Witness for C3: a concrete run of every clause on the scenario
collaborators (clause 4 with a field whose `cloud_key` is `"MY_KEY"` matching
the environment variable `my_key`). -/
theorem C3_per_field_resolver_witness :
    build_gcs_values myKeyCollab scenarioConfig .noneArg none [myKeyField, tokenRefField]
        = List.foldl (gcsFieldStep myKeyCollab scenarioConfig
            (gcsEnvVars myKeyCollab scenarioConfig .noneArg none)) (build_gcs_values
            myKeyCollab scenarioConfig .noneArg none [myKeyField]) [tokenRefField] ∧
      build_gcs_values myKeyCollab scenarioConfig .noneArg none [tokenRefField] = .fnil ∧
      dlookup (build_gcs_values myKeyCollab scenarioConfig .noneArg none [myKeyField])
        "K" = some (.vStr "secret-payload") := by
  refine ⟨(C3_per_field_resolver myKeyCollab scenarioConfig .noneArg none).1
    [myKeyField] [tokenRefField], ?_, ?_⟩
  · exact (C3_per_field_resolver myKeyCollab scenarioConfig .noneArg none).2.1
      tokenRefField "TOKEN_REF" rfl (Or.inl rfl)
  · exact (C3_per_field_resolver myKeyCollab scenarioConfig .noneArg none).2.2.2
      myKeyField "projects/q" rfl rfl rfl (by decide)

/-- Claim C10: the per-field secret resolver looks `cloud_key` names up in a
mapping built by merging the local env file underneath the process
environment (clause 1); the process environment wins on key collision
(clause 2); a key valued only in the env file is found there (clause 3), so
the secret resource identifier for a `cloud_key` may be supplied via the
local `.env` file and then drives the fetch (clause 4). -/
theorem C10_env_file_feeds_cloud_key (C : Collab) (cfg : Config)
    (efArg : EnvFileArg) (efEnc : Option String) (ef : String)
    (hef : resolveEnvFile cfg efArg = some ef)
    (hfile : C.is_file (C.expanduser ef) = true) :
    (gcsEnvVars C cfg efArg efEnc
      = pymerge
          (C.read_env_file (C.expanduser ef)
            (match efEnc with
              | some e => some e
              | none => cfg.env_file_encoding)
            cfg.case_sensitive)
          (baseEnvVars C cfg.case_sensitive)) ∧
    (∀ k v, NoDupKeys C.os_environ →
      alookup (baseEnvVars C cfg.case_sensitive) k = some v →
      alookup (gcsEnvVars C cfg efArg efEnc) k = some v) ∧
    (∀ k rid, alookup (baseEnvVars C cfg.case_sensitive) k = none →
      rlookup (C.read_env_file (C.expanduser ef)
          (match efEnc with
            | some e => some e
            | none => cfg.env_file_encoding)
          cfg.case_sensitive) k = some (some rid) →
      envGet (gcsEnvVars C cfg efArg efEnc) k = some rid) ∧
    (∀ (f : FieldSpec) (ck0 rid : String), f.cloud_key = some (.vStr ck0) →
      alookup (baseEnvVars C cfg.case_sensitive)
        (if cfg.case_sensitive then ck0 else pyLower ck0) = none →
      rlookup (C.read_env_file (C.expanduser ef)
          (match efEnc with
            | some e => some e
            | none => cfg.env_file_encoding)
          cfg.case_sensitive) (if cfg.case_sensitive then ck0 else pyLower ck0)
        = some (some rid) →
      rid ≠ "" →
      build_gcs_values C cfg efArg efEnc [f]
        = .fcons f.falias (optStr (C.fetch rid none)) .fnil) := by
  have hshape : gcsEnvVars C cfg efArg efEnc
      = pymerge
          (C.read_env_file (C.expanduser ef)
            (match efEnc with
              | some e => some e
              | none => cfg.env_file_encoding)
            cfg.case_sensitive)
          (baseEnvVars C cfg.case_sensitive) := by
    unfold gcsEnvVars
    rw [hef]
    simp only [gcsEnvVarsAux]
    rw [if_pos hfile]
  have hfromfile : ∀ k rid, alookup (baseEnvVars C cfg.case_sensitive) k = none →
      rlookup (C.read_env_file (C.expanduser ef)
          (match efEnc with
            | some e => some e
            | none => cfg.env_file_encoding)
          cfg.case_sensitive) k = some (some rid) →
      envGet (gcsEnvVars C cfg efArg efEnc) k = some rid := by
    intro k rid hb hf
    have hrb : rlookup (baseEnvVars C cfg.case_sensitive) k = none :=
      rlookup_eq_none_of_not_mem (alookup_none_not_mem hb)
    unfold envGet
    rw [hshape, alookup_pymerge, hrb]
    simp only [hf]
  refine ⟨hshape, ?_, hfromfile, ?_⟩
  · intro k v hnd hb
    have hrb : rlookup (baseEnvVars C cfg.case_sensitive) k = some v := by
      rw [rlookup_eq_alookup (noDupKeys_baseEnvVars hnd cfg.case_sensitive) k]
      exact hb
    rw [hshape, alookup_pymerge, hrb]
  · intro f ck0 rid hck hb hf hr
    unfold build_gcs_values
    rw [List.foldl_cons, List.foldl_nil,
      gcsFieldStep_hit hck (hfromfile _ rid hb hf) hr]
    rfl

/-- A collaborator bundle where only the local `.env` file supplies
`token_ref=projects/z`. -/
def envFileCollab : Collab where
  fetch := fun k _ => if k = "projects/z" then some "zz" else none
  dotenv_values := fun _ => []
  json_loads := fun _ => .error "not JSON"
  read_env_file := fun _ _ _ => [("token_ref", some "projects/z")]
  is_file := fun _ => true
  expanduser := fun p => p
  os_environ := [("other", "x")]
  secrets_files := .fnil

/-- A configuration with a local env file configured. -/
def envFileConfig : Config where
  case_sensitive := false
  env_file := some ".env"
  env_file_encoding := none
  cloud_env_file := none
  cloud_env_file_encoding := none

/-- Witness for C10: with `token_ref` only in the `.env` file, the secret is
fetched via the identifier read from the file. -/
theorem C10_env_file_feeds_cloud_key_witness :
    build_gcs_values envFileCollab envFileConfig .sentinel none [tokenRefField]
      = .fcons "TOKEN" (.vStr "zz") .fnil :=
  (C10_env_file_feeds_cloud_key envFileCollab envFileConfig .sentinel none
      ".env" rfl rfl).2.2.2 tokenRefField "TOKEN_REF" "projects/z" rfl rfl rfl
    (by decide)

/-- `cfg` with `cloud_env_file` removed. -/
def dropCloudEnvFile (cfg : Config) : Config :=
  Config.mk cfg.case_sensitive cfg.env_file cfg.env_file_encoding none
    cfg.cloud_env_file_encoding

/-- Shared helper: when the lower-cased `cloud_env_file` key misses the
environment, the `KeyError` is caught and `_build_cloud_environ` behaves as
if no cloud env file were configured. -/
theorem build_cloud_environ_miss {C : Collab} {cfg : Config} {cef : String}
    (hcef : cfg.cloud_env_file = some cef)
    (hmiss : alookup (baseEnvVars C cfg.case_sensitive) (pyLower cef) = none)
    (fields : List FieldSpec) :
    build_cloud_environ C cfg fields
      = build_cloud_environ C (dropCloudEnvFile cfg) fields := by
  unfold build_cloud_environ cloudEnvVars
  rw [hcef]
  simp only [cloudEnvVarsAux]
  rw [hmiss]
  rfl

/-- Claim C6, clauses about the cloud env-file layer: (a) if the variable
named by `cloud_env_file` is absent from the environment, the resolver (logs
a warning and) does not raise, and the layer contributes nothing; (b) if the
blob fetch fails (`None`, hence an empty stream for the dotenv parser), the
layer likewise contributes nothing; (c) otherwise the fetched blob is parsed
as env-file syntax into a flat mapping whose keys are lower-cased unless
case-sensitive. -/
theorem C6_cloud_env_file_failures (C : Collab) (cfg : Config) (cef : String)
    (hcef : cfg.cloud_env_file = some cef) :
    (∀ fields, alookup (baseEnvVars C cfg.case_sensitive) (pyLower cef) = none →
      build_cloud_environ C cfg fields
        = build_cloud_environ C (dropCloudEnvFile cfg) fields) ∧
    (∀ fields rid, NoDupKeys C.os_environ →
      alookup (baseEnvVars C cfg.case_sensitive) (pyLower cef) = some (some rid) →
      C.fetch rid cfg.cloud_env_file_encoding = none →
      C.dotenv_values "" = [] →
      build_cloud_environ C cfg fields
        = build_cloud_environ C (dropCloudEnvFile cfg) fields) ∧
    (∀ path enc blob, C.fetch path enc = some blob →
      read_cloud_env_file C path enc false
          = pyDictOf ((C.dotenv_values blob).map fun p => (pyLower p.1, p.2)) ∧
        read_cloud_env_file C path enc true = C.dotenv_values blob) := by
  refine ⟨fun fields h => build_cloud_environ_miss hcef h fields, ?_, ?_⟩
  · intro fields rid hnd hlook hfetch hdot
    have hread : read_cloud_env_file C rid cfg.cloud_env_file_encoding false = [] := by
      unfold read_cloud_env_file
      rw [hfetch]
      simp only [Option.getD_none]
      rw [hdot]
      rfl
    have hcv : cloudEnvVars C cfg
        = pymerge (read_cloud_env_file C rid cfg.cloud_env_file_encoding false)
            (baseEnvVars C cfg.case_sensitive) := by
      unfold cloudEnvVars
      rw [hcef]
      simp only [cloudEnvVarsAux]
      rw [hlook]
    unfold build_cloud_environ
    rw [hcv, hread, pymerge_nil_left (noDupKeys_baseEnvVars hnd cfg.case_sensitive)]
    rfl
  · intro path enc blob hfetch
    constructor
    · unfold read_cloud_env_file
      rw [hfetch]
      rfl
    · unfold read_cloud_env_file
      rw [hfetch]
      rfl

/-- A collaborator bundle for the C6 witness: the environment lacks `cef`,
and the store maps `p` to an env-file blob that the dotenv parser reads as
`{"A": "1"}`. -/
def cloudFileCollab : Collab where
  fetch := fun k _ => if k = "p" then some "A=1" else none
  dotenv_values := fun b => if b = "A=1" then [("A", some "1")] else []
  json_loads := fun _ => .error "not JSON"
  read_env_file := fun _ _ _ => []
  is_file := fun _ => false
  expanduser := fun p => p
  os_environ := [("x", "y")]
  secrets_files := .fnil

/-- A configuration with a cloud env file named `CEF`. -/
def cloudFileConfig : Config where
  case_sensitive := false
  env_file := none
  env_file_encoding := none
  cloud_env_file := some "CEF"
  cloud_env_file_encoding := none

/-- Witness for C6: the `CEF` variable is absent, so the layer equals the
cloud-file-less layer; and a fetched blob is parsed with lower-cased keys. -/
theorem C6_cloud_env_file_failures_witness :
    build_cloud_environ cloudFileCollab cloudFileConfig [tokenRefField]
        = build_cloud_environ cloudFileCollab (dropCloudEnvFile cloudFileConfig)
            [tokenRefField] ∧
      read_cloud_env_file cloudFileCollab "p" none false = [("a", some "1")] := by
  constructor
  · exact (C6_cloud_env_file_failures cloudFileCollab cloudFileConfig "CEF" rfl).1
      [tokenRefField] rfl
  · rw [(C6_cloud_env_file_failures cloudFileCollab cloudFileConfig "CEF" rfl).2.2
      "p" none "A=1" rfl |>.1]
    rfl

/-- Claim C9: the cloud env-file lookup always uses the lower-cased name
`env_vars[cloud_env_file.lower()]`, whatever the case-sensitivity
configuration: (i) the resource identifier driving the layer is the value
stored under the lower-cased key; (ii) consequently, under
`case_sensitive=True`, a `cloud_env_file` name that is not entirely
lower-case is never found — even when the environment holds the variable
under its exact configured spelling — so the `KeyError` branch fires and the
layer contributes nothing. -/
theorem C9_lookup_uses_lowercased_name (C : Collab) (cfg : Config)
    (cef : String) (hcef : cfg.cloud_env_file = some cef) :
    (∀ rid, alookup (baseEnvVars C cfg.case_sensitive) (pyLower cef)
        = some (some rid) →
      cloudEnvVars C cfg
        = pymerge (read_cloud_env_file C rid cfg.cloud_env_file_encoding false)
            (baseEnvVars C cfg.case_sensitive)) ∧
    (∀ fields rid, cfg.case_sensitive = true → pyLower cef ≠ cef →
      alookup C.os_environ cef = some rid →
      alookup C.os_environ (pyLower cef) = none →
      build_cloud_environ C cfg fields
        = build_cloud_environ C (dropCloudEnvFile cfg) fields) := by
  constructor
  · intro rid hlook
    unfold cloudEnvVars
    rw [hcef]
    simp only [cloudEnvVarsAux]
    rw [hlook]
  · intro fields rid hcs _ _ hmiss
    refine build_cloud_environ_miss hcef ?_ fields
    rw [hcs]
    unfold baseEnvVars
    rw [if_pos rfl, alookup_map_some, hmiss]
    rfl

/-- A case-sensitive configuration naming the cloud env file `MY_FILE`. -/
def upperFileConfig : Config where
  case_sensitive := true
  env_file := none
  env_file_encoding := none
  cloud_env_file := some "MY_FILE"
  cloud_env_file_encoding := none

/-- A collaborator bundle whose environment holds `MY_FILE` under exactly
that spelling. -/
def upperFileCollab : Collab where
  fetch := fun _ _ => none
  dotenv_values := fun _ => []
  json_loads := fun _ => .error "not JSON"
  read_env_file := fun _ _ _ => []
  is_file := fun _ => false
  expanduser := fun p => p
  os_environ := [("MY_FILE", "projects/r")]
  secrets_files := .fnil

/-- Witness for C9: with `case_sensitive=True` and `MY_FILE` present under
its exact spelling, the layer still contributes nothing. -/
theorem C9_lookup_uses_lowercased_name_witness :
    build_cloud_environ upperFileCollab upperFileConfig [tokenRefField]
      = build_cloud_environ upperFileCollab (dropCloudEnvFile upperFileConfig)
          [tokenRefField] :=
  (C9_lookup_uses_lowercased_name upperFileCollab upperFileConfig "MY_FILE"
      rfl).2 [tokenRefField] "projects/r" rfl (by decide) rfl rfl

/-- Claim C4: for a field marked complex whose raw value is found in the
environment layer, the raw text is JSON-decoded before entering the merge
(clause 1: the decoded value, not the raw string, is stored); a decode
failure raises a `SettingsError` identifying the offending variable name
(clause 2), and that failure propagates out of the whole `_build_values`
pass rather than being silenced (clause 3). -/
theorem C4_complex_json_decode (f : FieldSpec) (n s : String)
    (hcx : f.is_complex = true) :
    (∀ (jl : String → Except String PyVal) (ev : EnvMap)
        (rest : List FieldSpec) (d : PyFields) (v : PyVal),
      firstHit ev f.env_names = some (n, s) → jl s = .ok v →
      settingsFieldsLoop jl ev (f :: rest) d
        = settingsFieldsLoop jl ev rest (dset d f.falias v)) ∧
    (∀ (jl : String → Except String PyVal) (ev : EnvMap)
        (rest : List FieldSpec) (d : PyFields) (msg : String),
      firstHit ev f.env_names = some (n, s) → jl s = .error msg →
      settingsFieldsLoop jl ev (f :: rest) d
        = .error ("error parsing JSON for \"" ++ n ++ "\"")) ∧
    (∀ (C : Collab) (cfg : Config) (fields : List FieldSpec)
        (kwargs : PyFields) (efArg : EnvFileArg) (efEnc : Option String)
        (msg : String),
      firstHit (cloudEnvVars C cfg) f.env_names = some (n, s) →
      C.json_loads s = .error msg →
      build_values C cfg (f :: fields) kwargs efArg efEnc
        = .error ("error parsing JSON for \"" ++ n ++ "\"")) := by
  have herr : ∀ (jl : String → Except String PyVal) (ev : EnvMap)
      (rest : List FieldSpec) (d : PyFields) (msg : String),
      firstHit ev f.env_names = some (n, s) → jl s = .error msg →
      settingsFieldsLoop jl ev (f :: rest) d
        = .error ("error parsing JSON for \"" ++ n ++ "\"") := by
    intro jl ev rest d msg hfh hjl
    simp only [settingsFieldsLoop]
    rw [hfh]
    simp only [hcx, if_true]
    rw [hjl]
  refine ⟨?_, herr, ?_⟩
  · intro jl ev rest d v hfh hjl
    simp only [settingsFieldsLoop]
    rw [hfh]
    simp only [hcx, if_true]
    rw [hjl]
  · intro C cfg fields kwargs efArg efEnc msg hfh hjl
    unfold build_values
    rw [show build_cloud_environ C cfg (f :: fields)
        = .error ("error parsing JSON for \"" ++ n ++ "\"") from
      herr C.json_loads (cloudEnvVars C cfg) fields .fnil msg hfh hjl]
    rfl

/-- A collaborator bundle with `opts=notjson` in the environment and a
`json.loads` that rejects it. -/
def optsCollab : Collab where
  fetch := fun _ _ => none
  dotenv_values := fun _ => []
  json_loads := fun t =>
    if t = "goodjson" then .ok (.vDict (.fcons "a" (.vInt 1) .fnil))
    else .error "bad JSON"
  read_env_file := fun _ _ _ => []
  is_file := fun _ => false
  expanduser := fun p => p
  os_environ := [("opts", "notjson")]
  secrets_files := .fnil

/-- The complex field `OPTS`. -/
def optsField : FieldSpec where
  falias := "OPTS"
  env_names := ["opts"]
  is_complex := true
  cloud_key := none

/-- Witness for C4: a malformed complex value makes the whole build raise a
`SettingsError` naming the variable. -/
theorem C4_complex_json_decode_witness :
    build_values optsCollab scenarioConfig [optsField] .fnil .noneArg none
      = .error ("error parsing JSON for \"opts\"") :=
  (C4_complex_json_decode optsField "opts" "notjson" rfl).2.2 optsCollab
    scenarioConfig [] .fnil .noneArg none "bad JSON" rfl rfl

theorem noDupKeysF_fnil : NoDupKeysF .fnil := by simp [NoDupKeysF, dkeys]

/-- Claim C1: `_build_values` deep-merges exactly the five overlay layers in
the fixed order cloud-env-file layer, cloud per-field secret layer, local
secrets-directory layer, local environment layer, constructor kwargs, later
overriding earlier (clause 1); in particular a field valued in the cloud
per-field secret layer is overridden by a (non-dict) value in the local
environment layer (clause 2), and a (non-dict) constructor kwarg always wins
(clause 3). -/
theorem C1_five_layer_precedence (C : Collab) (cfg : Config)
    (fields : List FieldSpec) (kwargs : PyFields) (efArg : EnvFileArg)
    (efEnc : Option String) (ce e : PyFields)
    (hce : build_cloud_environ C cfg fields = .ok ce)
    (he : build_environ C cfg efArg efEnc fields = .ok e) :
    (build_values C cfg fields kwargs efArg efEnc
      = .ok (deepUpdate2 (deepUpdate2 (deepUpdate2 (deepUpdate2 ce
          (build_gcs_values C cfg efArg efEnc fields)) C.secrets_files) e)
          kwargs)) ∧
    (∀ (k : String) (v w : PyVal) (d : PyFields),
      dlookup (build_gcs_values C cfg efArg efEnc fields) k = some v →
      dlookup C.secrets_files k = none →
      dlookup e k = some w → isVDict w = false →
      dlookup kwargs k = none →
      build_values C cfg fields kwargs efArg efEnc = .ok d →
      dlookup d k = some w) ∧
    (∀ (k : String) (u : PyVal) (d : PyFields), NoDupKeysF kwargs →
      dlookup kwargs k = some u → isVDict u = false →
      build_values C cfg fields kwargs efArg efEnc = .ok d →
      dlookup d k = some u) := by
  have hshape : build_values C cfg fields kwargs efArg efEnc
      = .ok (deepUpdate2 (deepUpdate2 (deepUpdate2 (deepUpdate2 ce
          (build_gcs_values C cfg efArg efEnc fields)) C.secrets_files) e)
          kwargs) := by
    unfold build_values
    rw [hce, he]
    rfl
  refine ⟨hshape, ?_, ?_⟩
  · intro k v w d hG hS hE hwnd hK hbv
    rw [hshape] at hbv
    injection hbv with hbv
    subst hbv
    have hGnd : NoDupKeysF (build_gcs_values C cfg efArg efEnc fields) :=
      noDupKeysF_gcs_fold fields noDupKeysF_fnil
    have hvnd : isVDict v = false := by
      rcases dlookup_gcs_fold_shape fields .fnil hG with h' | ⟨o, rfl⟩
      · exact absurd h' (by simp [dlookup])
      · exact isVDict_optStr o
    have hEnd : NoDupKeysF e := loop_ok_nodup fields .fnil e he noDupKeysF_fnil
    have step1 : dlookup (deepUpdate2 ce
        (build_gcs_values C cfg efArg efEnc fields)) k = some v := by
      refine dlookup_deepUpdate2_last ?_ hvnd ce
      rw [drlookup_eq_dlookup hGnd]
      exact hG
    have step2 : dlookup (deepUpdate2 (deepUpdate2 ce
        (build_gcs_values C cfg efArg efEnc fields)) C.secrets_files) k
        = some v := by
      rw [dlookup_deepUpdate2_none hS]
      exact step1
    have step3 : dlookup (deepUpdate2 (deepUpdate2 (deepUpdate2 ce
        (build_gcs_values C cfg efArg efEnc fields)) C.secrets_files) e) k
        = some w := by
      refine dlookup_deepUpdate2_last ?_ hwnd _
      rw [drlookup_eq_dlookup hEnd]
      exact hE
    rw [dlookup_deepUpdate2_none hK]
    exact step3
  · intro k u d hKnd hK hund hbv
    rw [hshape] at hbv
    injection hbv with hbv
    subst hbv
    refine dlookup_deepUpdate2_last ?_ hund _
    rw [drlookup_eq_dlookup hKnd]
    exact hK

/-- A collaborator bundle where `TOKEN` is valued both via the cloud secret
(`token_ref=r`, store maps `r` to `"cloud"`) and locally
(`token=local`). -/
def layeredCollab : Collab where
  fetch := fun k _ => if k = "r" then some "cloud" else none
  dotenv_values := fun _ => []
  json_loads := fun _ => .error "not JSON"
  read_env_file := fun _ _ _ => []
  is_file := fun _ => false
  expanduser := fun p => p
  os_environ := [("token_ref", "r"), ("token", "local")]
  secrets_files := .fnil

/-- Witness for C1: the cloud secret layer resolves `TOKEN` to `"cloud"`,
but the local environment layer's `"local"` is the value in the result. -/
theorem C1_five_layer_precedence_witness :
    build_values layeredCollab scenarioConfig [tokenRefField] .fnil .noneArg none
        = .ok (.fcons "TOKEN" (.vStr "local") .fnil) ∧
      dlookup (build_gcs_values layeredCollab scenarioConfig .noneArg none
          [tokenRefField]) "TOKEN" = some (.vStr "cloud") ∧
      dlookup (.fcons "TOKEN" (.vStr "local") .fnil : PyFields) "TOKEN"
        = some (.vStr "local") := by
  refine ⟨rfl, rfl, ?_⟩
  exact (C1_five_layer_precedence layeredCollab scenarioConfig [tokenRefField]
      .fnil .noneArg none _ _ rfl rfl).2.1 "TOKEN" (.vStr "cloud")
    (.vStr "local") _ rfl rfl rfl rfl rfl rfl

theorem envGet_eq_some {m : EnvMap} {k v : String} :
    envGet m k = some v ↔ alookup m k = some (some v) := by
  unfold envGet
  cases h : alookup m k with
  | none => simp
  | some o => cases o <;> simp

/-- A collaborator bundle whose cloud env-file blob values the plain field
`FOO` (which carries no `cloud_key`): `cef=blobrid` in the environment, the
store maps `blobrid` to an env-file blob, and the dotenv parser reads it as
`{"FOO": "bar"}`. -/
def cloudBlobCollab : Collab where
  fetch := fun k _ => if k = "blobrid" then some "FOO=bar" else none
  dotenv_values := fun b => if b = "FOO=bar" then [("FOO", some "bar")] else []
  json_loads := fun _ => .error "not JSON"
  read_env_file := fun _ _ _ => []
  is_file := fun _ => false
  expanduser := fun p => p
  os_environ := [("cef", "blobrid")]
  secrets_files := .fnil

/-- A plain field with no `cloud_key`. -/
def fooField : FieldSpec where
  falias := "FOO"
  env_names := ["foo"]
  is_complex := false
  cloud_key := none

/-- Claim C7, counterexample: `FOO` is declared without `cloud_key`, yet the
cloud env-file layer supplies its value: the resolved value is `"bar"`,
while the non-cloud layers alone resolve nothing for `FOO` — so "the cloud
layers never contribute a value" fails at this input. -/
theorem C7_counterexample :
    fooField.cloud_key = none ∧
      build_values cloudBlobCollab cloudFileConfig [fooField] .fnil .noneArg none
        = .ok (.fcons "FOO" (.vStr "bar") .fnil) ∧
      noncloud_values cloudBlobCollab cloudFileConfig [fooField] .fnil .noneArg none
        = .ok .fnil ∧
      dlookup (.fcons "FOO" (.vStr "bar") .fnil : PyFields) "FOO"
        = some (.vStr "bar") ∧
      dlookup (.fnil : PyFields) "FOO" = none :=
  ⟨rfl, rfl, rfl, rfl, rfl⟩

/-- Claim C7, amended: the per-field secret layer never contributes for a
field without a string `cloud_key`; and provided no cloud env file is
configured (the cloud env-file layer can value any field, as the
counterexample shows), the resolved value of a non-complex such field — one
whose alias no complex or cloud-keyed field shares — is identical to what
the non-cloud layers alone produce. -/
theorem C7_no_cloud_key_passthrough (C : Collab) (cfg : Config)
    (efArg : EnvFileArg) (efEnc : Option String) (a : String)
    (fields : List FieldSpec) (kwargs : PyFields) (d nd : PyFields)
    (hnocef : cfg.cloud_env_file = none)
    (hosnd : NoDupKeys C.os_environ)
    (hsnd : NoDupKeysF C.secrets_files)
    (hfields : ∀ g ∈ fields, g.falias = a →
      hasStrCloudKey g = false ∧ g.is_complex = false)
    (hbv : build_values C cfg fields kwargs efArg efEnc = .ok d)
    (hnv : noncloud_values C cfg fields kwargs efArg efEnc = .ok nd) :
    dlookup d a = dlookup nd a := by
  unfold build_values at hbv
  unfold noncloud_values at hnv
  cases hce : build_cloud_environ C cfg fields with
  | error m =>
    rw [hce] at hbv
    simp only [buildValuesCombine] at hbv
    exact Except.noConfusion hbv
  | ok ce =>
  cases he : build_environ C cfg efArg efEnc fields with
  | error m =>
    rw [hce, he] at hbv
    simp only [buildValuesCombine] at hbv
    exact Except.noConfusion hbv
  | ok e =>
  rw [hce, he] at hbv
  rw [he] at hnv
  simp only [buildValuesCombine] at hbv
  simp only [noncloudCombine] at hnv
  injection hbv with hbv
  injection hnv with hnv
  subst hbv
  subst hnv
  -- with no cloud env file, `_build_cloud_environ` loops over the base
  -- mapping
  have hcv : cloudEnvVars C cfg = baseEnvVars C cfg.case_sensitive := by
    unfold cloudEnvVars
    rw [hnocef]
    rfl
  have hce' : settingsFieldsLoop C.json_loads (baseEnvVars C cfg.case_sensitive)
      fields .fnil = .ok ce := by
    rw [← hcv]
    exact hce
  have he' : settingsFieldsLoop C.json_loads (gcsEnvVars C cfg efArg efEnc)
      fields .fnil = .ok e := he
  have hncx : ∀ g ∈ fields, g.falias = a → g.is_complex = false :=
    fun g hg hga => (hfields g hg hga).2
  -- the per-field secret layer has no binding at `a`
  have hG : dlookup (build_gcs_values C cfg efArg efEnc fields) a = none :=
    (dlookup_gcs_fold_none fields (fun g hg hga => (hfields g hg hga).1) .fnil).trans rfl
  -- case on the cloud-environ layer's binding at `a`
  rcases loop_ok_vstr fields hncx .fnil ce hce' with hznone | ⟨s, hzs⟩
  · -- no binding: the extra layers are invisible at `a`
    have hznone' : dlookup ce a = none := hznone.trans rfl
    have h1 : dlookup (deepUpdate2 ce
        (build_gcs_values C cfg efArg efEnc fields)) a = none := by
      rw [dlookup_deepUpdate2_none hG]
      exact hznone'
    have h2 : dlookup (deepUpdate2 (deepUpdate2 ce
        (build_gcs_values C cfg efArg efEnc fields)) C.secrets_files) a
        = dlookup C.secrets_files a := by
      have hcg : dlookup (deepUpdate2 ce
          (build_gcs_values C cfg efArg efEnc fields)) a
          = dlookup (PyFields.fnil) a := by
        rw [h1]
        rfl
      rw [dlookup_deepUpdate2_congr hcg C.secrets_files,
        deepUpdate2_fnil_left hsnd]
    exact dlookup_deepUpdate2_congr (dlookup_deepUpdate2_congr h2 e) kwargs
  · -- the cloud-environ layer binds `a` to a string; then the local environ
    -- layer (whose mapping extends the base mapping) also binds `a` to a
    -- string, and that later binding decides `a` on both sides
    have hmono : ∀ n v, envGet (baseEnvVars C cfg.case_sensitive) n = some v →
        ∃ w, envGet (gcsEnvVars C cfg efArg efEnc) n = some w := by
      intro n v h
      unfold gcsEnvVars
      cases hre : resolveEnvFile cfg efArg with
      | none => exact ⟨v, h⟩
      | some ef =>
        simp only [gcsEnvVarsAux]
        by_cases hif : C.is_file (C.expanduser ef) = true
        · rw [if_pos hif]
          refine ⟨v, ?_⟩
          rw [envGet_eq_some] at h ⊢
          rw [alookup_pymerge,
            rlookup_eq_alookup (noDupKeys_baseEnvVars hosnd cfg.case_sensitive) n,
            h]
        · rw [if_neg hif]
          exact ⟨v, h⟩
    obtain ⟨s2, hes2⟩ := loop_hit_transfer hmono fields hncx .fnil .fnil ce e
      hce' he' (fun hcontra => absurd rfl hcontra)
      (by rw [hzs]; exact fun hh => Option.noConfusion hh)
    have hEnd : NoDupKeysF e := loop_ok_nodup fields .fnil e he' noDupKeysF_fnil
    have hdr : drlookup e a = some (.vStr s2) := by
      rw [drlookup_eq_dlookup hEnd]
      exact hes2
    have hleft : dlookup (deepUpdate2 (deepUpdate2 (deepUpdate2 ce
        (build_gcs_values C cfg efArg efEnc fields)) C.secrets_files) e) a
        = some (.vStr s2) := dlookup_deepUpdate2_last hdr rfl _
    have hright : dlookup (deepUpdate2 C.secrets_files e) a
        = some (.vStr s2) := dlookup_deepUpdate2_last hdr rfl _
    exact dlookup_deepUpdate2_congr (hleft.trans hright.symm) kwargs

/-- A collaborator bundle for the C7 witness: only `foo=x` in the process
environment, no cloud anything. -/
def passThroughCollab : Collab where
  fetch := fun _ _ => none
  dotenv_values := fun _ => []
  json_loads := fun _ => .error "not JSON"
  read_env_file := fun _ _ _ => []
  is_file := fun _ => false
  expanduser := fun p => p
  os_environ := [("foo", "x")]
  secrets_files := .fnil

/-- Witness for C7's amended theorem: without a cloud env file, a field
without `cloud_key` resolves identically with and without the cloud
layers. -/
theorem C7_no_cloud_key_passthrough_witness :
    dlookup (.fcons "FOO" (.vStr "x") .fnil : PyFields) "FOO"
      = dlookup (.fcons "FOO" (.vStr "x") .fnil : PyFields) "FOO" :=
  C7_no_cloud_key_passthrough passThroughCollab scenarioConfig .noneArg none
    "FOO" [fooField] .fnil _ _ rfl (by simp [NoDupKeys, passThroughCollab]) noDupKeysF_fnil
    (fun g hg hga => by
      cases hg with
      | head => exact ⟨rfl, rfl⟩
      | tail _ hh => cases hh)
    rfl rfl

end PydanticCloud
